import Mathlib

/-!
# Verifier health endpoint

A shallow embedding of `verifier/internal/http/handler.go` together with the
parts of Go's `net/http`, `net/http/httptest`, `fmt` and `encoding/json` that
the handler calls.  Response writers are explicit state; a `Write` that may
return an error is driven by a fault schedule stored in the writer.
-/

namespace Verifier

/-! ## net/http: status codes, methods and headers -/

/-- Go constant `http.MethodGet`. -/
def MethodGet : String := "GET"

/-- Go constant `http.StatusOK`. -/
def StatusOK : Nat := 200

/-- Go constant `http.StatusMethodNotAllowed`. -/
def StatusMethodNotAllowed : Nat := 405

/-- Go constant `http.StatusInternalServerError`. -/
def StatusInternalServerError : Nat := 500

/-- Go's `http.Header` (`map[string][]string`) as an association list that
holds at most one entry per key once it is only changed through `Set`/`Del`. -/
abbrev Header := List (String × List String)

/-- Go's `textproto.validHeaderFieldByte`: the token characters of RFC 7230. -/
def validHeaderFieldByte (c : Char) : Bool :=
  c.isAlphanum || "!#$%&'*+-.^_`|~".data.contains c

/-- The capitalisation loop of `textproto.canonicalMIMEHeaderKey`: a letter is
upper-cased at the start and after a dash, lower-cased elsewhere. -/
def canonicalLoop : Bool → List Char → List Char
  | _, [] => []
  | upper, c :: cs =>
    let c1 := if upper && c.isLower then c.toUpper
              else if !upper && c.isUpper then c.toLower else c
    c1 :: canonicalLoop (c1 == '-') cs

/-- Go's `textproto.CanonicalMIMEHeaderKey`: a key made of token characters
only is capitalised, any other key is returned unchanged. -/
def CanonicalMIMEHeaderKey (s : String) : String :=
  if s.data.all validHeaderFieldByte then String.mk (canonicalLoop true s.data) else s

/-- Go's `Header.Del`: `delete(h, CanonicalMIMEHeaderKey(key))`. -/
def Header.Del (h : Header) (key : String) : Header :=
  h.filter (fun kv => kv.1 != CanonicalMIMEHeaderKey key)

/-- Go's `Header.Set`: `h[CanonicalMIMEHeaderKey(key)] = []string\x7bvalue\x7d`. -/
def Header.Set (h : Header) (key value : String) : Header :=
  (CanonicalMIMEHeaderKey key, [value]) :: h.Del key

/-- Go's `Header.Get`: the first value stored under the canonical key, or the
empty string. -/
def Header.Get (h : Header) (key : String) : String :=
  match h.lookup (CanonicalMIMEHeaderKey key) with
  | some (v :: _) => v
  | _ => ""

/-- Go's `http.Request`, reduced to the parts a handler can observe: method,
path, query string, headers and the bytes of the body not read so far. -/
structure Request where
  Method : String
  Path : String
  RawQuery : String
  Header : Header
  Body : String
deriving DecidableEq

/-- Go's `httptest.NewRequest(method, target, nil)` for an origin-form target:
an empty method stands for GET, the target is split at its first question mark
into path and query, and there are no headers and no body. -/
def NewRequest (method target : String) : Request :=
  { Method := if method = "" then "GET" else method,
    Path := String.mk (target.data.takeWhile (fun c => c != '?')),
    RawQuery := String.mk ((target.data.dropWhile (fun c => c != '?')).drop 1),
    Header := [], Body := "" }

/-- A GET request that carries a query string, a header and a body. -/
def probeRequest : Request :=
  { Method := "GET", Path := "/other", RawQuery := "a=b",
    Header := [("X-Trace", ["1"])], Body := "payload" }

/-! ## The response writer -/

/-- An `http.ResponseWriter` with the state of `httptest.ResponseRecorder`
(`HeaderMap`, `wroteHeader`, `Code`, `snapHeader`, `Body`) and, for writers
whose `Write` can fail, a schedule `faults`: its head decides the next call of
`Write`, `none` (or an exhausted schedule) meaning success and `some n` an
error returned after `n` bytes were stored. -/
structure ResponseWriter where
  HeaderMap : Header
  wroteHeader : Bool
  Code : Nat
  snapHeader : Header
  Body : String
  faults : List (Option Nat)
deriving DecidableEq

/-- Go's `httptest.NewRecorder()`: empty header map, empty body, `Code` 200,
no header written; every `Write` succeeds. -/
def NewRecorder : ResponseWriter :=
  { HeaderMap := [], wroteHeader := false, Code := 200, snapHeader := [],
    Body := "", faults := [] }

/-- A fresh response writer whose calls of `Write` follow the schedule `fs`. -/
def freshWriter (fs : List (Option Nat)) : ResponseWriter :=
  { NewRecorder with faults := fs }

/-- Every `Write` of the schedule succeeds. -/
def writesSucceed (fs : List (Option Nat)) : Prop := ∀ f ∈ fs, f = none

instance (fs : List (Option Nat)) : Decidable (writesSucceed fs) := by
  unfold writesSucceed; infer_instance

/-- Go's `ResponseWriter.Header().Set(key, value)`: the live header map is
changed, also after the header was written; what was sent is `snapHeader`. -/
def ResponseWriter.SetHeader (w : ResponseWriter) (key value : String) : ResponseWriter :=
  { w with HeaderMap := w.HeaderMap.Set key value }

/-- Go's `ResponseWriter.Header().Del(key)`. -/
def ResponseWriter.DelHeader (w : ResponseWriter) (key : String) : ResponseWriter :=
  { w with HeaderMap := w.HeaderMap.Del key }

/-- Go's `ResponseRecorder.WriteHeader`: the first call fixes the status code
and snapshots the headers; every later call returns without any effect (the
server's writer logs it as superfluous).  The range check of
`checkWriteHeaderCode` is left out: the handler passes 200, 405 and 500. -/
def ResponseWriter.WriteHeader (w : ResponseWriter) (code : Nat) : ResponseWriter :=
  if w.wroteHeader then w
  else { w with Code := code, wroteHeader := true, snapHeader := w.HeaderMap }

/-- Go's `ResponseWriter.Write`: a write before any `WriteHeader` writes the
header with status 200 first (the content sniffing of that path is left out:
`Error` and `HealthHandler` call `WriteHeader` before every write, see
`WriteHeader_wroteHeader`); then the bytes are appended to the body,
or the scheduled write error is returned after the scheduled number of bytes. -/
def ResponseWriter.Write (w : ResponseWriter) (buf : String) : ResponseWriter × Option String :=
  let w1 := if w.wroteHeader then w else w.WriteHeader 200
  match w1.faults with
  | [] => ({ w1 with Body := w1.Body ++ buf }, none)
  | none :: fs => ({ w1 with Body := w1.Body ++ buf, faults := fs }, none)
  | some n :: fs =>
    ({ w1 with Body := w1.Body ++ String.mk (buf.data.take n), faults := fs },
      some "write error")

/-- Go's `http.Error`: drop `Content-Length`, set the plain-text content type
and `nosniff`, write the header with `code`, then `fmt.Fprintln(w, error)`,
whose result is discarded. -/
def Error (w : ResponseWriter) (error : String) (code : Nat) : ResponseWriter :=
  let w1 := w.DelHeader "Content-Length"
  let w2 := w1.SetHeader "Content-Type" "text/plain; charset=utf-8"
  let w3 := w2.SetHeader "X-Content-Type-Options" "nosniff"
  let w4 := w3.WriteHeader code
  (w4.Write (error ++ "\n")).1

/-! ## encoding/json: the encoder -/

/-- The health check response of `handler.go`, with JSON keys `status` and
`message`. -/
structure HealthResponse where
  Status : String
  Message : String
deriving DecidableEq

/-- One hexadecimal digit, as in the table `hex` of `encoding/json`. -/
def hexDigit (n : Nat) : Char :=
  "0123456789abcdef".data.getD n '0'

/-- One character of a JSON string as `encoding/json` writes it with HTML
escaping on (the default of `NewEncoder`): the quote and the backslash are
escaped with a backslash, the control characters by their short form or as
`\u00XX`, the characters `<`, `>`, `&` and U+2028, U+2029 as `\uXXXX`. -/
def escapeChar (c : Char) : List Char :=
  if c = '"' then ['\\', '"']
  else if c = '\\' then ['\\', '\\']
  else if c = '\x08' then ['\\', 'b']
  else if c = '\x0c' then ['\\', 'f']
  else if c = '\n' then ['\\', 'n']
  else if c = '\r' then ['\\', 'r']
  else if c = '\t' then ['\\', 't']
  else if c.toNat < 0x20 ∨ c = '<' ∨ c = '>' ∨ c = '&' then
    ['\\', 'u', '0', '0', hexDigit (c.toNat / 16), hexDigit (c.toNat % 16)]
  else if c.toNat = 0x2028 then ['\\', 'u', '2', '0', '2', '8']
  else if c.toNat = 0x2029 then ['\\', 'u', '2', '0', '2', '9']
  else [c]

/-- A JSON string literal: the escaped characters between two quotes. -/
def appendString (s : String) : String :=
  String.mk ('"' :: (s.data.flatMap escapeChar ++ ['"']))

/-- Go's `json.Marshal` on a `HealthResponse`: the fields in declaration
order under their tag names, without whitespace.  A struct of two string
fields has no failing case in the encoder, so the result is always `ok`. -/
def Marshal (v : HealthResponse) : Except String String :=
  .ok ("\x7b" ++ "\"status\":" ++ appendString v.Status ++ ","
        ++ "\"message\":" ++ appendString v.Message ++ "\x7d")

/-- Go's `json.NewEncoder(w).Encode(v)`: marshal `v`, append a newline, and
hand the bytes to `w.Write` in one call; the error is the marshalling error or
the one returned by `Write`. -/
def Encode (w : ResponseWriter) (v : HealthResponse) : ResponseWriter × Option String :=
  match Marshal v with
  | .error e => (w, some e)
  | .ok b => w.Write (b ++ "\n")

/-! ## handler.go -/

/-- The handler of `handler.go`: a method other than GET is answered through
`http.Error` with 405; otherwise the content type is set, the header is written
with 200 and the response is encoded, and an encoding error is answered
through `http.Error` with 500.  The request is returned next to the writer: the
handler reads nothing but `r.Method` and leaves the request as it was. -/
def HealthHandler (w : ResponseWriter) (r : Request) : ResponseWriter × Request :=
  if r.Method ≠ MethodGet then
    (Error w "Method not allowed" StatusMethodNotAllowed, r)
  else
    let response : HealthResponse :=
      { Status := "ok", Message := "Verifier service is healthy" }
    let w1 := w.SetHeader "Content-Type" "application/json"
    let w2 := w1.WriteHeader StatusOK
    match Encode w2 response with
    | (w3, some _) => (Error w3 "Internal server error" StatusInternalServerError, r)
    | (w3, none) => (w3, r)

/-! ## encoding/json: the decoder used by the test -/

/-- JSON whitespace is skipped: space, tab, newline, carriage return. -/
def skipWS : List Char → List Char
  | [] => []
  | c :: cs => if c = ' ' ∨ c = '\t' ∨ c = '\n' ∨ c = '\r' then skipWS cs else c :: cs

/-- The value of one hexadecimal digit of a `\uXXXX` escape. -/
def hexVal (c : Char) : Option Nat :=
  if '0' ≤ c ∧ c ≤ '9' then some (c.toNat - '0'.toNat)
  else if 'a' ≤ c ∧ c ≤ 'f' then some (c.toNat - 'a'.toNat + 10)
  else if 'A' ≤ c ∧ c ≤ 'F' then some (c.toNat - 'A'.toNat + 10)
  else none

/-- The character of one escape inside a JSON string: the letter after the
backslash and, for `u`, four hexadecimal digits.  Surrogate escapes are not
decoded. -/
def unescape : List Char → Option (Char × List Char)
  | 'u' :: a :: b :: c :: d :: cs =>
    match hexVal a, hexVal b, hexVal c, hexVal d with
    | some x, some y, some z, some t =>
      let n := ((x * 16 + y) * 16 + z) * 16 + t
      if 0xd800 ≤ n ∧ n < 0xe000 then none else some (Char.ofNat n, cs)
    | _, _, _, _ => none
  | e :: cs =>
    if e = '"' ∨ e = '\\' ∨ e = '/' then some (e, cs)
    else if e = 'b' then some ('\x08', cs)
    else if e = 'f' then some ('\x0c', cs)
    else if e = 'n' then some ('\n', cs)
    else if e = 'r' then some ('\r', cs)
    else if e = 't' then some ('\t', cs)
    else none
  | [] => none

/-- A JSON string after its opening quote: the decoded characters (collected
in `acc`, newest first) and the input after the closing quote.  A control
character inside the literal is an error; `fuel` bounds the characters read. -/
def scanString : Nat → List Char → List Char → Option (String × List Char)
  | 0, _, _ => none
  | _ + 1, [], _ => none
  | fuel + 1, c :: cs, acc =>
    if c = '"' then some (String.mk acc.reverse, cs)
    else if c = '\\' then
      match unescape cs with
      | some (d, rest) => scanString fuel rest (d :: acc)
      | none => none
    else if c.toNat < 0x20 then none
    else scanString fuel cs (c :: acc)

/-- The field of `HealthResponse` a JSON key names: the tag itself or the tag
in another ASCII capitalisation. -/
def assignField (v : HealthResponse) (key value : String) : HealthResponse :=
  if key.data.map Char.toLower = "status".data then { v with Status := value }
  else if key.data.map Char.toLower = "message".data then { v with Message := value }
  else v

/-- The members of a JSON object, from the opening quote of a key on: each is
a string key, a colon and a string value, followed by a comma or the closing
brace; a later member overrides an earlier one of the same field. -/
def scanMembers : Nat → List Char → HealthResponse → Option HealthResponse
  | 0, _, _ => none
  | fuel + 1, cs, v =>
    match skipWS cs with
    | k :: cs1 =>
      if k ≠ '"' then none else
      match scanString cs1.length cs1 [] with
      | none => none
      | some (key, cs2) =>
        if ¬ key.data.all (fun c => decide (c.toNat < 0x80)) then none else
        match skipWS cs2 with
        | colon :: cs3 =>
          if colon ≠ ':' then none else
          match skipWS cs3 with
          | q :: cs4 =>
            if q ≠ '"' then none else
            match scanString cs4.length cs4 [] with
            | none => none
            | some (value, cs5) =>
              match skipWS cs5 with
              | sep :: cs6 =>
                if sep = '}' then some (assignField v key value)
                else if sep = ',' then scanMembers fuel cs6 (assignField v key value)
                else none
              | [] => none
          | [] => none
        | [] => none
    | [] => none

/-- Go's `json.NewDecoder(body).Decode(&response)` for a `HealthResponse`
that starts out zero, on the JSON documents the test can meet: the first value
of the stream must be an object whose keys are ASCII strings and whose values
are strings; what follows the object is left unread.  Any other input gives
`none`, also where Go accepts it (`null`, values of other types under unknown
keys), so a result `some v` is the value Go decodes. -/
def Decode (body : String) : Option HealthResponse :=
  match skipWS body.data with
  | open1 :: cs =>
    if open1 ≠ '{' then none else
    match skipWS cs with
    | close1 :: rest =>
      if close1 = '}' then some { Status := "", Message := "" }
      else scanMembers (close1 :: rest).length (close1 :: rest) { Status := "", Message := "" }
    | [] => none
  | [] => none

/-! ## Repeated invocations -/

/-- One invocation of the handler per writer of `ws`, all for the request
`r`; the handler keeps no state between calls, so each result is computed
from its own writer and the request alone. -/
def invocations (ws : List ResponseWriter) (r : Request) : List ResponseWriter :=
  ws.map (fun w => (HealthHandler w r).1)

/-- The body of a successful health response as the encoder writes it. -/
def healthBody : String :=
  "\x7b\"status\":\"ok\",\"message\":\"Verifier service is healthy\"\x7d\n"

/-- The body `http.Error` writes for a rejected method. -/
def notAllowedBody : String := "Method not allowed\n"

/-! ## State lemmas -/

/-- After `WriteHeader` the header counts as written, whatever the state
before: every `Write` of `Error` and of `HealthHandler` follows such a call. -/
theorem WriteHeader_wroteHeader (w : ResponseWriter) (code : Nat) :
    (w.WriteHeader code).wroteHeader = true := by
  unfold ResponseWriter.WriteHeader
  by_cases h : w.wroteHeader = true <;> simp [h]

/-- A second `WriteHeader` changes nothing. -/
theorem WriteHeader_twice (w : ResponseWriter) (c d : Nat) :
    (w.WriteHeader c).WriteHeader d = w.WriteHeader c := by
  have h := WriteHeader_wroteHeader w c
  generalize w.WriteHeader c = u at h
  simp [ResponseWriter.WriteHeader, h]

/-- The final writer of a GET request on a fresh writer whose writes succeed. -/
theorem HealthHandler_get (r : Request) (fs : List (Option Nat))
    (h : r.Method = MethodGet) (hs : writesSucceed fs) :
    (HealthHandler (freshWriter fs) r).1 =
      { HeaderMap := [("Content-Type", ["application/json"])], wroteHeader := true,
        Code := 200, snapHeader := [("Content-Type", ["application/json"])],
        Body := healthBody, faults := fs.tail } := by
  unfold HealthHandler
  rw [if_neg (not_not.mpr h)]
  cases fs with
  | nil => rfl
  | cons f t =>
    have hf : f = none := hs f (List.mem_cons_self _ _)
    subst hf
    rfl

/-- The final writer of a request with another method on a fresh writer. -/
theorem HealthHandler_other (r : Request) (fs : List (Option Nat))
    (h : r.Method ≠ MethodGet) :
    (HealthHandler (freshWriter fs) r).1 =
      { HeaderMap := [("X-Content-Type-Options", ["nosniff"]),
                      ("Content-Type", ["text/plain; charset=utf-8"])],
        wroteHeader := true, Code := 405,
        snapHeader := [("X-Content-Type-Options", ["nosniff"]),
                       ("Content-Type", ["text/plain; charset=utf-8"])],
        Body := match fs with
          | some n :: _ => String.mk (notAllowedBody.data.take n)
          | _ => notAllowedBody,
        faults := fs.tail } := by
  unfold HealthHandler
  rw [if_pos h]
  cases fs with
  | nil => rfl
  | cons f t =>
    cases f with
    | none => rfl
    | some n => rfl

/-- The final writer of a GET request on a fresh writer whose first write
returns an error after `n` bytes. -/
theorem HealthHandler_get_fault (r : Request) (n : Nat) (fs : List (Option Nat))
    (h : r.Method = MethodGet) :
    (HealthHandler (freshWriter (some n :: fs)) r).1 =
      { HeaderMap := [("X-Content-Type-Options", ["nosniff"]),
                      ("Content-Type", ["text/plain; charset=utf-8"])],
        wroteHeader := true, Code := 200,
        snapHeader := [("Content-Type", ["application/json"])],
        Body := String.mk (healthBody.data.take n) ++
          (match fs with
            | some m :: _ => String.mk ("Internal server error\n".data.take m)
            | _ => "Internal server error\n"),
        faults := fs.tail } := by
  unfold HealthHandler
  rw [if_neg (not_not.mpr h)]
  cases fs with
  | nil => rfl
  | cons f t =>
    cases f with
    | none => rfl
    | some m => rfl

/-- No prefix of the 405 body decodes as a health response. -/
theorem Decode_notAllowed_prefix (n : Nat) :
    Decode (String.mk (notAllowedBody.data.take n)) = none := by
  cases n with
  | zero => rfl
  | succ k => rfl

/-- No prefix of the 405 body is the encoding of a health response. -/
theorem notAllowed_prefix_ne_Marshal (n : Nat) (v : HealthResponse) (b : String)
    (hb : Marshal v = .ok b) : String.mk (notAllowedBody.data.take n) ≠ b ++ "\n" := by
  unfold Marshal at hb
  cases hb
  intro hEq
  have hd := congrArg String.data hEq
  cases n with
  | zero => simp [notAllowedBody] at hd
  | succ k => simp [notAllowedBody] at hd

/-! ## The GET branch -/

/-- C1: a request with method GET, whatever its path, headers and body, handled
on a fresh writer whose writes succeed, is answered with status 200, with
`Content-Type` equal to `application/json` (in the live header map and in the
headers sent), and with a body that decodes as JSON to status "ok" and message
"Verifier service is healthy". -/
theorem HealthHandler_get_response (r : Request) (fs : List (Option Nat))
    (hm : r.Method = "GET") (hs : writesSucceed fs) :
    (HealthHandler (freshWriter fs) r).1.Code = 200 ∧
    (HealthHandler (freshWriter fs) r).1.HeaderMap.Get "Content-Type" = "application/json" ∧
    (HealthHandler (freshWriter fs) r).1.snapHeader.Get "Content-Type" = "application/json" ∧
    Decode (HealthHandler (freshWriter fs) r).1.Body =
      some { Status := "ok", Message := "Verifier service is healthy" } := by
  rw [HealthHandler_get r fs hm hs]
  exact ⟨rfl, rfl, rfl, rfl⟩

/-- Witness of C1: a GET request with query, headers and body on a writer
whose scheduled write succeeds. -/
theorem HealthHandler_get_response_witness :
    (HealthHandler (freshWriter [none]) probeRequest).1.Code = 200 ∧
    (HealthHandler (freshWriter [none]) probeRequest).1.HeaderMap.Get "Content-Type"
      = "application/json" ∧
    (HealthHandler (freshWriter [none]) probeRequest).1.snapHeader.Get "Content-Type"
      = "application/json" ∧
    Decode (HealthHandler (freshWriter [none]) probeRequest).1.Body =
      some { Status := "ok", Message := "Verifier service is healthy" } :=
  HealthHandler_get_response probeRequest [none] rfl (by decide)

/-- C4, as stated, fails: the body recorded for `GET /healthz` is not the bare
JSON object, the encoder ends it with a newline. -/
theorem HealthHandler_get_body_not_bare_object :
    (NewRequest "GET" "/healthz").Method = "GET" ∧ writesSucceed [] ∧
    (HealthHandler (freshWriter []) (NewRequest "GET" "/healthz")).1.Body ≠
      "\x7b\"status\":\"ok\",\"message\":\"Verifier service is healthy\"\x7d" := by
  decide

/-- C4, amended: for a GET request on a fresh writer whose writes succeed the
body is exactly the object with key "status" first, then "message", without
whitespace inside, followed by one newline and nothing else. -/
theorem HealthHandler_get_body (r : Request) (fs : List (Option Nat))
    (hm : r.Method = "GET") (hs : writesSucceed fs) :
    (HealthHandler (freshWriter fs) r).1.Body =
      "\x7b\"status\":\"ok\",\"message\":\"Verifier service is healthy\"\x7d" ++ "\n" := by
  rw [HealthHandler_get r fs hm hs]
  rfl

/-- Witness of amended C4: `GET /healthz` on a recorder. -/
theorem HealthHandler_get_body_witness :
    (HealthHandler (freshWriter []) (NewRequest "GET" "/healthz")).1.Body =
      "\x7b\"status\":\"ok\",\"message\":\"Verifier service is healthy\"\x7d" ++ "\n" :=
  HealthHandler_get_body (NewRequest "GET" "/healthz") [] rfl (by decide)

/-- C9: encoding the fixed response cannot fail.  For a GET request on a fresh
writer whose writes succeed, marshalling gives the JSON object, `Encode` on the
writer as the handler has prepared it returns no error, the handler ends in
the state `Encode` left (the error branch is not taken), and the status is
not 500. -/
theorem HealthHandler_encode_never_fails (r : Request) (fs : List (Option Nat))
    (hm : r.Method = "GET") (hs : writesSucceed fs) :
    Marshal { Status := "ok", Message := "Verifier service is healthy" } =
      .ok "\x7b\"status\":\"ok\",\"message\":\"Verifier service is healthy\"\x7d" ∧
    (Encode (((freshWriter fs).SetHeader "Content-Type" "application/json").WriteHeader StatusOK)
      { Status := "ok", Message := "Verifier service is healthy" }).2 = none ∧
    (HealthHandler (freshWriter fs) r).1 =
      (Encode (((freshWriter fs).SetHeader "Content-Type" "application/json").WriteHeader StatusOK)
        { Status := "ok", Message := "Verifier service is healthy" }).1 ∧
    (HealthHandler (freshWriter fs) r).1.Code ≠ 500 := by
  rw [HealthHandler_get r fs hm hs]
  cases fs with
  | nil => exact ⟨rfl, rfl, rfl, (by decide : (200 : Nat) ≠ 500)⟩
  | cons f t =>
    have hf : f = none := hs f (List.mem_cons_self _ _)
    subst hf
    exact ⟨rfl, rfl, rfl, (by decide : (200 : Nat) ≠ 500)⟩

/-- Witness of C9: `GET /healthz` on a writer with two scheduled successful
writes. -/
theorem HealthHandler_encode_never_fails_witness :
    Marshal { Status := "ok", Message := "Verifier service is healthy" } =
      .ok "\x7b\"status\":\"ok\",\"message\":\"Verifier service is healthy\"\x7d" ∧
    (Encode (((freshWriter [none, none]).SetHeader "Content-Type"
        "application/json").WriteHeader StatusOK)
      { Status := "ok", Message := "Verifier service is healthy" }).2 = none ∧
    (HealthHandler (freshWriter [none, none]) (NewRequest "GET" "/healthz")).1 =
      (Encode (((freshWriter [none, none]).SetHeader "Content-Type"
          "application/json").WriteHeader StatusOK)
        { Status := "ok", Message := "Verifier service is healthy" }).1 ∧
    (HealthHandler (freshWriter [none, none]) (NewRequest "GET" "/healthz")).1.Code ≠ 500 :=
  HealthHandler_encode_never_fails (NewRequest "GET" "/healthz") [none, none] rfl (by decide)

/-- C3 fails on the code: for a GET request on a fresh writer whose first
write returns an error, `Encode` reports the error and the handler calls
`http.Error` with 500, but the header was already written with 200: the status
stays 200 and the content type sent stays `application/json`. -/
theorem HealthHandler_write_error_keeps_200 (r : Request) (n : Nat) (fs : List (Option Nat))
    (hm : r.Method = "GET") :
    (Encode (((freshWriter (some n :: fs)).SetHeader "Content-Type"
        "application/json").WriteHeader StatusOK)
      { Status := "ok", Message := "Verifier service is healthy" }).2 ≠ none ∧
    (HealthHandler (freshWriter (some n :: fs)) r).1.Code = 200 ∧
    (HealthHandler (freshWriter (some n :: fs)) r).1.Code ≠ StatusInternalServerError ∧
    (HealthHandler (freshWriter (some n :: fs)) r).1.snapHeader.Get "Content-Type" =
      "application/json" := by
  rw [HealthHandler_get_fault r n fs hm]
  exact ⟨by simp [Encode, Marshal, ResponseWriter.Write, ResponseWriter.WriteHeader,
    ResponseWriter.SetHeader, freshWriter, NewRecorder], rfl,
    (by decide : (200 : Nat) ≠ 500), rfl⟩

/-- Witness of the C3 evaluation: `GET /healthz` on a writer whose first write
fails at once and whose second write succeeds. -/
theorem HealthHandler_write_error_keeps_200_witness :
    (Encode (((freshWriter [some 0]).SetHeader "Content-Type"
        "application/json").WriteHeader StatusOK)
      { Status := "ok", Message := "Verifier service is healthy" }).2 ≠ none ∧
    (HealthHandler (freshWriter [some 0]) (NewRequest "GET" "/healthz")).1.Code = 200 ∧
    (HealthHandler (freshWriter [some 0]) (NewRequest "GET" "/healthz")).1.Code ≠
      StatusInternalServerError ∧
    (HealthHandler (freshWriter [some 0]) (NewRequest "GET" "/healthz")).1.snapHeader.Get
      "Content-Type" = "application/json" :=
  HealthHandler_write_error_keeps_200 (NewRequest "GET" "/healthz") 0 [] rfl

/-! ## The branch of the other methods -/

/-- C2: a request whose method is anything but exactly "GET", handled on a
fresh writer with any write schedule, is answered with status 405, and no JSON
body is written: the handler does what `http.Error` does and nothing else, the
body is a prefix of the plain error line, it does not decode as a health
response and it is the encoding of no `HealthResponse`. -/
theorem HealthHandler_rejects_other_methods (r : Request) (fs : List (Option Nat))
    (hm : r.Method ≠ "GET") :
    (HealthHandler (freshWriter fs) r).1.Code = 405 ∧
    (HealthHandler (freshWriter fs) r).1 =
      Error (freshWriter fs) "Method not allowed" StatusMethodNotAllowed ∧
    (HealthHandler (freshWriter fs) r).1.Body.data <+: "Method not allowed\n".data ∧
    Decode (HealthHandler (freshWriter fs) r).1.Body = none ∧
    ∀ (v : HealthResponse) (b : String), Marshal v = .ok b →
      (HealthHandler (freshWriter fs) r).1.Body ≠ b ++ "\n" := by
  refine ⟨by rw [HealthHandler_other r fs hm], ?_, ?_⟩
  · unfold HealthHandler
    rw [if_pos (show r.Method ≠ MethodGet from hm)]
  · rw [HealthHandler_other r fs hm]
    have hall : notAllowedBody = String.mk (notAllowedBody.data.take 19) := rfl
    rcases fs with _ | ⟨_ | n, t⟩
    · exact ⟨List.prefix_refl _, rfl,
        fun v b hb => hall ▸ notAllowed_prefix_ne_Marshal 19 v b hb⟩
    · exact ⟨List.prefix_refl _, rfl,
        fun v b hb => hall ▸ notAllowed_prefix_ne_Marshal 19 v b hb⟩
    · exact ⟨List.take_prefix n _, Decode_notAllowed_prefix n,
        fun v b hb => notAllowed_prefix_ne_Marshal n v b hb⟩

/-- Witness of C2: a request with the lower-case method "get". -/
theorem HealthHandler_rejects_other_methods_witness :
    (HealthHandler (freshWriter []) (NewRequest "get" "/healthz")).1.Code = 405 ∧
    (HealthHandler (freshWriter []) (NewRequest "get" "/healthz")).1 =
      Error (freshWriter []) "Method not allowed" StatusMethodNotAllowed ∧
    (HealthHandler (freshWriter []) (NewRequest "get" "/healthz")).1.Body.data <+:
      "Method not allowed\n".data ∧
    Decode (HealthHandler (freshWriter []) (NewRequest "get" "/healthz")).1.Body = none ∧
    ∀ (v : HealthResponse) (b : String), Marshal v = .ok b →
      (HealthHandler (freshWriter []) (NewRequest "get" "/healthz")).1.Body ≠ b ++ "\n" :=
  HealthHandler_rejects_other_methods (NewRequest "get" "/healthz") [] (by decide)

/-- C5, as stated, fails: the body recorded for `POST /healthz` is not the
bare string "Method not allowed", `http.Error` ends the line with a newline. -/
theorem HealthHandler_post_body_not_bare_line :
    (NewRequest "POST" "/healthz").Method ≠ "GET" ∧
    (HealthHandler (freshWriter []) (NewRequest "POST" "/healthz")).1.Body ≠
      "Method not allowed" := by
  decide

/-- C5, amended: for a request whose method is not "GET" the handler writes the
line "Method not allowed" ended by a newline: the body of a fresh writer is a
prefix of that line, and the whole line when the writes succeed. -/
theorem HealthHandler_other_body (r : Request) (fs : List (Option Nat))
    (hm : r.Method ≠ "GET") :
    (HealthHandler (freshWriter fs) r).1.Body.data <+: ("Method not allowed" ++ "\n").data ∧
    (writesSucceed fs →
      (HealthHandler (freshWriter fs) r).1.Body = "Method not allowed" ++ "\n") := by
  rw [HealthHandler_other r fs hm]
  rcases fs with _ | ⟨_ | n, t⟩
  · exact ⟨List.prefix_refl _, fun _ => rfl⟩
  · exact ⟨List.prefix_refl _, fun _ => rfl⟩
  · refine ⟨List.take_prefix n _, fun hs => ?_⟩
    have hf := hs (some n) (List.mem_cons_self _ _)
    cases hf

/-- Witness of amended C5: `POST /healthz` on a recorder, whose writes
succeed. -/
theorem HealthHandler_other_body_witness :
    (NewRequest "POST" "/healthz").Method ≠ "GET" ∧ writesSucceed [] ∧
    (HealthHandler (freshWriter []) (NewRequest "POST" "/healthz")).1.Body.data <+:
      ("Method not allowed" ++ "\n").data ∧
    (HealthHandler (freshWriter []) (NewRequest "POST" "/healthz")).1.Body =
      "Method not allowed" ++ "\n" :=
  ⟨by decide, by decide,
    (HealthHandler_other_body (NewRequest "POST" "/healthz") [] (by decide)).1,
    (HealthHandler_other_body (NewRequest "POST" "/healthz") [] (by decide)).2 (by decide)⟩

/-- C6: for a request whose method is not "GET", handled on a fresh writer,
the headers after the handler returns (the live map and the headers sent) hold
the plain-text content type set by `http.Error`; `Content-Type` is not
`application/json` and no entry of that key lists that value. -/
theorem HealthHandler_other_content_type (r : Request) (fs : List (Option Nat))
    (hm : r.Method ≠ "GET") :
    (HealthHandler (freshWriter fs) r).1.HeaderMap.Get "Content-Type" =
      "text/plain; charset=utf-8" ∧
    (HealthHandler (freshWriter fs) r).1.snapHeader.Get "Content-Type" =
      "text/plain; charset=utf-8" ∧
    (HealthHandler (freshWriter fs) r).1.HeaderMap.Get "Content-Type" ≠ "application/json" ∧
    (HealthHandler (freshWriter fs) r).1.snapHeader.Get "Content-Type" ≠ "application/json" ∧
    (∀ vs, ("Content-Type", vs) ∈ (HealthHandler (freshWriter fs) r).1.HeaderMap →
      "application/json" ∉ vs) ∧
    (∀ vs, ("Content-Type", vs) ∈ (HealthHandler (freshWriter fs) r).1.snapHeader →
      "application/json" ∉ vs) := by
  have hne : ("text/plain; charset=utf-8" : String) ≠ "application/json" := by decide
  rw [HealthHandler_other r fs hm]
  refine ⟨rfl, rfl, fun h => hne (Eq.trans rfl h), fun h => hne (Eq.trans rfl h), ?_, ?_⟩ <;>
  · intro vs hvs
    simp at hvs
    subst hvs
    decide

/-- Witness of C6: `DELETE /healthz` on a recorder. -/
theorem HealthHandler_other_content_type_witness :
    (HealthHandler (freshWriter []) (NewRequest "DELETE" "/healthz")).1.HeaderMap.Get
      "Content-Type" = "text/plain; charset=utf-8" ∧
    (HealthHandler (freshWriter []) (NewRequest "DELETE" "/healthz")).1.snapHeader.Get
      "Content-Type" = "text/plain; charset=utf-8" ∧
    (HealthHandler (freshWriter []) (NewRequest "DELETE" "/healthz")).1.HeaderMap.Get
      "Content-Type" ≠ "application/json" ∧
    (HealthHandler (freshWriter []) (NewRequest "DELETE" "/healthz")).1.snapHeader.Get
      "Content-Type" ≠ "application/json" ∧
    (∀ vs, ("Content-Type", vs) ∈
        (HealthHandler (freshWriter []) (NewRequest "DELETE" "/healthz")).1.HeaderMap →
      "application/json" ∉ vs) ∧
    (∀ vs, ("Content-Type", vs) ∈
        (HealthHandler (freshWriter []) (NewRequest "DELETE" "/healthz")).1.snapHeader →
      "application/json" ∉ vs) :=
  HealthHandler_other_content_type (NewRequest "DELETE" "/healthz") [] (by decide)

/-! ## Determinism and non-interference -/

/-- The handler returns the request as it received it. -/
theorem HealthHandler_request (w : ResponseWriter) (r : Request) :
    (HealthHandler w r).2 = r := by
  unfold HealthHandler
  by_cases h : r.Method ≠ MethodGet
  · rw [if_pos h]
  · rw [if_neg h]
    dsimp only
    split <;> rfl

/-- The final writer is a function of the writer and of the method. -/
theorem HealthHandler_writer_congr (w : ResponseWriter) (r1 r2 : Request)
    (hm : r1.Method = r2.Method) : (HealthHandler w r1).1 = (HealthHandler w r2).1 := by
  unfold HealthHandler
  rw [hm]
  by_cases h : r2.Method ≠ MethodGet
  · rw [if_pos h, if_pos h]
  · rw [if_neg h, if_neg h]
    dsimp only
    split <;> rfl

/-- C7, as stated, fails: two invocations for `GET /healthz`, each on its own
fresh writer, one a recorder and one whose first write returns an error at
once, do not leave byte-identical bodies: the first body is the encoded health
response, the second the error line alone. -/
theorem HealthHandler_get_bodies_differ :
    (NewRequest "GET" "/healthz").Method = "GET" ∧
    (invocations ([[], [some 0]].map freshWriter) (NewRequest "GET" "/healthz")).length = 2 ∧
    (HealthHandler (freshWriter []) (NewRequest "GET" "/healthz")).1.Body = healthBody ∧
    (HealthHandler (freshWriter [some 0]) (NewRequest "GET" "/healthz")).1.Body =
      "Internal server error\n" ∧
    ¬ ∀ x ∈ invocations ([[], [some 0]].map freshWriter) (NewRequest "GET" "/healthz"),
        ∀ y ∈ invocations ([[], [some 0]].map freshWriter) (NewRequest "GET" "/healthz"),
          x.Code = y.Code ∧ x.Body = y.Body := by
  refine ⟨rfl, rfl, rfl, rfl, fun hall => ?_⟩
  have hx : (HealthHandler (freshWriter []) (NewRequest "GET" "/healthz")).1 ∈
      invocations ([[], [some 0]].map freshWriter) (NewRequest "GET" "/healthz") := by
    simp [invocations]
  have hy : (HealthHandler (freshWriter [some 0]) (NewRequest "GET" "/healthz")).1 ∈
      invocations ([[], [some 0]].map freshWriter) (NewRequest "GET" "/healthz") := by
    simp [invocations]
  have hbody := (hall _ hx _ hy).2
  revert hbody
  decide

/-- C7, amended: the handler is deterministic on GET for writers whose writes
succeed.  For a GET request and `n ≥ 1` invocations, each on its own fresh
writer whose writes succeed, there are `n` results, every one has status 200 and
the same body, and any two of them agree in status and body. -/
theorem HealthHandler_get_repeatable (r : Request) (n : Nat) (fss : List (List (Option Nat)))
    (hm : r.Method = "GET") (hn : 1 ≤ n) (hlen : fss.length = n)
    (hs : ∀ fs ∈ fss, writesSucceed fs) :
    (invocations (fss.map freshWriter) r).length = n ∧
    invocations (fss.map freshWriter) r ≠ [] ∧
    (∀ x ∈ invocations (fss.map freshWriter) r, x.Code = 200 ∧ x.Body = healthBody) ∧
    ∀ x ∈ invocations (fss.map freshWriter) r, ∀ y ∈ invocations (fss.map freshWriter) r,
      x.Code = y.Code ∧ x.Body = y.Body := by
  have hlen2 : (invocations (fss.map freshWriter) r).length = n := by
    simp [invocations, hlen]
  have hall : ∀ x ∈ invocations (fss.map freshWriter) r,
      x.Code = 200 ∧ x.Body = healthBody := by
    intro x hx
    simp only [invocations, List.mem_map] at hx
    obtain ⟨w, ⟨fs, hfs, rfl⟩, rfl⟩ := hx
    rw [HealthHandler_get r fs hm (hs fs hfs)]
    exact ⟨rfl, rfl⟩
  refine ⟨hlen2, ?_, hall, ?_⟩
  · intro hnil
    rw [hnil] at hlen2
    simp at hlen2
    omega
  · intro x hx y hy
    obtain ⟨hx1, hx2⟩ := hall x hx
    obtain ⟨hy1, hy2⟩ := hall y hy
    exact ⟨hx1.trans hy1.symm, hx2.trans hy2.symm⟩

/-- Witness of amended C7: three invocations for `GET /healthz`, each on a
fresh writer whose scheduled writes succeed. -/
theorem HealthHandler_get_repeatable_witness :
    (invocations ([[], [none], [none, none]].map freshWriter)
      (NewRequest "GET" "/healthz")).length = 3 ∧
    invocations ([[], [none], [none, none]].map freshWriter) (NewRequest "GET" "/healthz") ≠ [] ∧
    (∀ x ∈ invocations ([[], [none], [none, none]].map freshWriter)
        (NewRequest "GET" "/healthz"), x.Code = 200 ∧ x.Body = healthBody) ∧
    ∀ x ∈ invocations ([[], [none], [none, none]].map freshWriter)
        (NewRequest "GET" "/healthz"),
      ∀ y ∈ invocations ([[], [none], [none, none]].map freshWriter)
        (NewRequest "GET" "/healthz"),
      x.Code = y.Code ∧ x.Body = y.Body :=
  HealthHandler_get_repeatable (NewRequest "GET" "/healthz") 3 [[], [none], [none, none]]
    rfl (by decide) rfl (by decide)

/-- C8: the response depends on the method only.  Two requests with the same
method, however they differ in path, query, headers and body, leave any writer
in the same final state (status code, headers, body), and the handler hands
each request back as it was, its body unread. -/
theorem HealthHandler_depends_on_method_only (w : ResponseWriter) (r1 r2 : Request)
    (hm : r1.Method = r2.Method) :
    (HealthHandler w r1).1 = (HealthHandler w r2).1 ∧
    (HealthHandler w r1).2 = r1 ∧ (HealthHandler w r2).2 = r2 ∧
    (HealthHandler w r1).2.Body = r1.Body ∧ (HealthHandler w r2).2.Body = r2.Body := by
  refine ⟨HealthHandler_writer_congr w r1 r2 hm, HealthHandler_request w r1,
    HealthHandler_request w r2, ?_, ?_⟩
  · rw [HealthHandler_request]
  · rw [HealthHandler_request]

/-- Witness of C8: two GET requests that differ in path, query, headers and
body, on a recorder. -/
theorem HealthHandler_depends_on_method_only_witness :
    (HealthHandler NewRecorder (NewRequest "GET" "/healthz")).1 =
      (HealthHandler NewRecorder probeRequest).1 ∧
    (HealthHandler NewRecorder (NewRequest "GET" "/healthz")).2 = NewRequest "GET" "/healthz" ∧
    (HealthHandler NewRecorder probeRequest).2 = probeRequest ∧
    (HealthHandler NewRecorder (NewRequest "GET" "/healthz")).2.Body =
      (NewRequest "GET" "/healthz").Body ∧
    (HealthHandler NewRecorder probeRequest).2.Body = probeRequest.Body :=
  HealthHandler_depends_on_method_only NewRecorder (NewRequest "GET" "/healthz")
    probeRequest rfl

end Verifier
